import Mathlib

/-!
# Verification of the TRMNL running-dashboard API

Shallow embedding of the calculation and aggregation logic of the
`trmnl-running-dashboard-api` repository (`src/utils.py`,
`src/function_app.py`, `src/strava_client.py`) together with proofs of the
specified properties.  Python floats are modelled as exact rationals (`ℚ`),
Python ints as `ℤ`, parsed JSON values by an inductive type, and raised
exceptions by `Except`.
-/

namespace TrmnlDash

/-! ## Python numeric primitives -/

/-- Floor of a rational (`⌊q⌋`, spelled out on the numerator and denominator
so that the kernel can evaluate it; see `ratFloor_eq_floor`). -/
def ratFloor (q : ℚ) : ℤ := q.num / (q.den : ℤ)

theorem ratFloor_eq_floor (q : ℚ) : ratFloor q = ⌊q⌋ := Rat.floor_def.symm

/-- Python 3 `round` on an exact rational: round-half-to-even
(banker's rounding), as implemented by CPython for `float` and `int`. -/
def pyRound (q : ℚ) : ℤ :=
  if q - (ratFloor q : ℚ) < 1/2 then ratFloor q
  else if 1/2 < q - (ratFloor q : ℚ) then ratFloor q + 1
  else if ratFloor q % 2 = 0 then ratFloor q else ratFloor q + 1

/-- Python `round(x, n)`: rounding to `n` decimal digits (half-to-even). -/
def pyRoundTo (q : ℚ) (n : ℕ) : ℚ :=
  (pyRound (q * (10 : ℚ) ^ n) : ℚ) / (10 : ℚ) ^ n

/-- Python `int(x)`: truncation toward zero. -/
def pyTrunc (q : ℚ) : ℤ :=
  if q < 0 then -ratFloor (-q) else ratFloor q

theorem pyRound_cases (q : ℚ) : pyRound q = ⌊q⌋ ∨ pyRound q = ⌊q⌋ + 1 := by
  unfold pyRound
  rw [ratFloor_eq_floor]
  split
  · exact Or.inl rfl
  · split
    · exact Or.inr rfl
    · split
      · exact Or.inl rfl
      · exact Or.inr rfl

theorem pyRound_nonneg {q : ℚ} (h : 0 ≤ q) : 0 ≤ pyRound q := by
  have hf : 0 ≤ ⌊q⌋ := Int.le_floor.mpr (by exact_mod_cast h)
  rcases pyRound_cases q with h' | h' <;> omega

/-- `pyRound q` is (one of) the closest integer(s) to `q`. -/
theorem pyRound_nearest (q : ℚ) (m : ℤ) :
    |(pyRound q : ℚ) - q| ≤ |(m : ℚ) - q| := by
  have hfle : ((⌊q⌋ : ℤ) : ℚ) ≤ q := Int.floor_le q
  have hflt : q < (⌊q⌋ : ℚ) + 1 := Int.lt_floor_add_one q
  have hm1 : (m : ℚ) - q ≤ |(m : ℚ) - q| := le_abs_self _
  have hm2 : q - (m : ℚ) ≤ |(m : ℚ) - q| := by
    rw [abs_sub_comm]; exact le_abs_self _
  have hmcases : (m : ℚ) ≤ (⌊q⌋ : ℚ) ∨ (⌊q⌋ : ℚ) + 1 ≤ (m : ℚ) := by
    rcases le_or_lt m ⌊q⌋ with h | h
    · exact Or.inl (by exact_mod_cast h)
    · exact Or.inr (by exact_mod_cast h)
  unfold pyRound
  rw [ratFloor_eq_floor]
  split
  · rw [abs_sub_comm, abs_of_nonneg (by linarith)]
    rcases hmcases with h | h <;> linarith
  · split
    · push_cast
      rw [abs_of_nonneg (by linarith)]
      rcases hmcases with h | h <;> linarith
    · split
      · rw [abs_sub_comm, abs_of_nonneg (by linarith)]
        rcases hmcases with h | h <;> linarith
      · push_cast
        rw [abs_of_nonneg (by linarith)]
        rcases hmcases with h | h <;> linarith

theorem pyRound_dist_le_half (q : ℚ) : |(pyRound q : ℚ) - q| ≤ 1/2 := by
  have hfle : ((⌊q⌋ : ℤ) : ℚ) ≤ q := Int.floor_le q
  have hflt : q < (⌊q⌋ : ℚ) + 1 := Int.lt_floor_add_one q
  unfold pyRound
  rw [ratFloor_eq_floor]
  split
  · rw [abs_sub_comm, abs_of_nonneg (by linarith)]; linarith
  · split
    · push_cast
      rw [abs_of_nonneg (by linarith)]
      linarith
    · split
      · rw [abs_sub_comm, abs_of_nonneg (by linarith)]; linarith
      · push_cast
        rw [abs_of_nonneg (by linarith)]
        linarith

/-- At an exact half, `pyRound` picks the even neighbour. -/
theorem pyRound_half_even {q : ℚ} (h : q - (⌊q⌋ : ℚ) = 1/2) :
    pyRound q % 2 = 0 := by
  unfold pyRound
  rw [ratFloor_eq_floor]
  rw [if_neg (by rw [h]; exact lt_irrefl _), if_neg (by rw [h]; exact lt_irrefl _)]
  split
  · assumption
  · omega

/-! ## `src/utils.py`: the pure calculators -/

/-- `utils.meters_to_miles`: multiply by `0.000621371`, `round(…, 1)`. -/
def meters_to_miles (meters : ℚ) : ℚ :=
  pyRoundTo (meters * (621371 / 1000000000)) 1

/-- `utils.seconds_to_minutes`: `round(seconds / 60)`. -/
def seconds_to_minutes (seconds : ℚ) : ℤ :=
  pyRound (seconds / 60)

/-- `utils.calculate_progress_percentage`: `0` when the target is zero,
otherwise `min(100, round(weekly/target*100))`. -/
def calculate_progress_percentage (weekly_miles target_miles : ℚ) : ℤ :=
  if target_miles = 0 then 0
  else min 100 (pyRound (weekly_miles / target_miles * 100))

/-- Python `f"{n:02d}"`: decimal rendering padded to width 2 with `0`. -/
def pad2 (n : ℤ) : String :=
  if 0 ≤ n ∧ n < 10 then "0" ++ toString n else toString n

/-- `utils.calculate_pace`: `"0:00"` when either input is zero, otherwise
minutes-per-unit split into truncated minutes and truncated seconds,
rendered `"M:SS"`. -/
def calculate_pace (distance_meters duration_seconds : ℚ)
    (metric : Bool := false) : String :=
  if distance_meters = 0 ∨ duration_seconds = 0 then "0:00"
  else
    let minutes_per_unit : ℚ :=
      if metric then
        duration_seconds / 60 / (distance_meters / 1000)
      else
        duration_seconds / 60 / (distance_meters * (621371 / 1000000000))
    let mins : ℤ := pyTrunc minutes_per_unit
    let secs : ℤ := pyTrunc ((minutes_per_unit - mins) * 60)
    toString mins ++ ":" ++ pad2 secs

/-! ## Claims about the pure calculators -/

/-- C2: `calculate_progress_percentage` returns `0` for a zero target
(without raising), otherwise the rounded and 100-clamped percentage; on
non-negative inputs the result always lies in `[0, 100]`; and the spec's
example values hold. -/
theorem claim_C2_progress_percentage (actual target : ℚ)
    (ha : 0 ≤ actual) (ht : 0 ≤ target) :
    (target = 0 → calculate_progress_percentage actual target = 0)
    ∧ (target ≠ 0 → calculate_progress_percentage actual target
        = min 100 (pyRound (actual / target * 100)))
    ∧ 0 ≤ calculate_progress_percentage actual target
    ∧ calculate_progress_percentage actual target ≤ 100
    ∧ calculate_progress_percentage 15.5 25 = 62
    ∧ calculate_progress_percentage 25 25 = 100
    ∧ calculate_progress_percentage 30 25 = 100
    ∧ calculate_progress_percentage 10 0 = 0 := by
  refine ⟨?_, ?_, ?_, ?_, ?_, ?_, ?_, ?_⟩
  · intro h; simp [calculate_progress_percentage, h]
  · intro h; simp [calculate_progress_percentage, h]
  · unfold calculate_progress_percentage
    split
    · exact le_refl 0
    · rename_i h
      have htpos : 0 < target := lt_of_le_of_ne ht (Ne.symm h)
      have : (0:ℚ) ≤ actual / target * 100 := by positivity
      have := pyRound_nonneg this
      omega
  · unfold calculate_progress_percentage
    split
    · omega
    · exact min_le_left _ _
  · with_unfolding_all decide
  · with_unfolding_all decide
  · with_unfolding_all decide
  · with_unfolding_all decide

theorem claim_C2_progress_percentage_witness :
    (0:ℚ) ≤ 15.5 ∧ (0:ℚ) ≤ 25
    ∧ 0 ≤ calculate_progress_percentage 15.5 25
    ∧ calculate_progress_percentage 15.5 25 ≤ 100 :=
  ⟨by norm_num, by norm_num,
    (claim_C2_progress_percentage 15.5 25 (by norm_num) (by norm_num)).2.2.1,
    (claim_C2_progress_percentage 15.5 25 (by norm_num) (by norm_num)).2.2.2.1⟩

/-- C4 (counterexample): the claim says exact halves round *up*; at
`seconds = 150` the quotient is exactly `2.5`, half-up would give
`⌊150/60 + 1/2⌋ = 3`, but `seconds_to_minutes` returns `2`. -/
theorem claim_C4_counterexample :
    seconds_to_minutes 150 = 2
    ∧ ⌊(150:ℚ)/60 + 1/2⌋ = 3
    ∧ seconds_to_minutes 150 ≠ ⌊(150:ℚ)/60 + 1/2⌋ := by
  have h3 : ⌊(150:ℚ)/60 + 1/2⌋ = 3 := by
    have : (150:ℚ)/60 + 1/2 = ((3:ℤ) : ℚ) := by norm_num
    rw [this, Int.floor_intCast]
  have h2 : seconds_to_minutes 150 = 2 := by with_unfolding_all decide
  exact ⟨h2, h3, by rw [h2, h3]; decide⟩

/-- C4 (amended): `seconds_to_minutes s` is a nearest integer to `s/60`
(within `1/2`, no integer is closer), and an exact half (`s ≡ 30 mod 60`)
resolves to the *even* neighbour — Python's round-half-to-even, not
round-half-up; the spec's example values hold. -/
theorem claim_C4_seconds_to_minutes (s : ℤ) (_hs : 0 ≤ s) :
    (∀ m : ℤ, |(seconds_to_minutes (s:ℚ) : ℚ) - (s:ℚ)/60| ≤ |(m:ℚ) - (s:ℚ)/60|)
    ∧ |(seconds_to_minutes (s:ℚ) : ℚ) - (s:ℚ)/60| ≤ 1/2
    ∧ (s % 60 = 30 → seconds_to_minutes (s:ℚ) % 2 = 0)
    ∧ seconds_to_minutes 90 = 2
    ∧ seconds_to_minutes 3600 = 60
    ∧ seconds_to_minutes 2700 = 45
    ∧ seconds_to_minutes 150 = 2 := by
  refine ⟨fun m => pyRound_nearest _ m, pyRound_dist_le_half _, ?_, ?_, ?_, ?_, ?_⟩
  · intro hmod
    apply pyRound_half_even
    obtain ⟨k, hk⟩ : ∃ k : ℤ, s = 60 * k + 30 := ⟨s / 60, by omega⟩
    have hq : (s:ℚ)/60 = (k:ℚ) + 1/2 := by
      rw [hk]; push_cast; ring
    have hfl : ⌊(s:ℚ)/60⌋ = k := by
      rw [hq, add_comm, Int.floor_add_int]
      norm_num
    rw [hfl, hq]
    ring
  · with_unfolding_all decide
  · with_unfolding_all decide
  · with_unfolding_all decide
  · with_unfolding_all decide

theorem claim_C4_seconds_to_minutes_witness :
    (0:ℤ) ≤ 90
    ∧ |(seconds_to_minutes ((90:ℤ):ℚ) : ℚ) - ((90:ℤ):ℚ)/60| ≤ 1/2 :=
  ⟨by norm_num, (claim_C4_seconds_to_minutes 90 (by norm_num)).2.1⟩

/-- C5: `calculate_pace` returns `"0:00"` whenever distance or duration is
zero; otherwise (on non-negative inputs) it renders the truncated whole
minutes and the floored remaining seconds, zero-padded to two digits, of the
minutes-per-unit value (per km when metric, else per mile via factor
`0.000621371`); and the spec's example values hold. -/
theorem claim_C5_calculate_pace (d t : ℚ) (metric : Bool)
    (hd : 0 ≤ d) (ht : 0 ≤ t) :
    ((d = 0 ∨ t = 0) → calculate_pace d t metric = "0:00")
    ∧ (d ≠ 0 → t ≠ 0 →
        calculate_pace d t metric =
          (let unitDist : ℚ := if metric then d / 1000 else d * (621371 / 1000000000)
           let mpu : ℚ := t / 60 / unitDist
           let M : ℤ := ⌊mpu⌋
           let S : ℤ := ⌊(mpu - (M:ℚ)) * 60⌋
           toString M ++ ":" ++ (if S < 10 then "0" ++ toString S else toString S)))
    ∧ calculate_pace 5000 1500 true = "5:00"
    ∧ calculate_pace 0 2700 false = "0:00"
    ∧ calculate_pace 8367.2 0 false = "0:00" := by
  refine ⟨?_, ?_, ?_, ?_, ?_⟩
  · intro h; simp [calculate_pace, h]
  · intro hd0 ht0
    have hdpos : 0 < d := lt_of_le_of_ne hd (Ne.symm hd0)
    have htpos : 0 < t := lt_of_le_of_ne ht (Ne.symm ht0)
    have hunit : (0:ℚ) < (if metric then d / 1000 else d * (621371 / 1000000000)) := by
      split
      · positivity
      · positivity
    have hmpu : (0:ℚ) < t / 60 / (if metric then d / 1000 else d * (621371 / 1000000000)) := by
      positivity
    set mpu : ℚ := t / 60 / (if metric then d / 1000 else d * (621371 / 1000000000)) with hmpudef
    have htrunc1 : pyTrunc mpu = ⌊mpu⌋ := by
      rw [pyTrunc, if_neg (not_lt.mpr (le_of_lt hmpu)), ratFloor_eq_floor]
    have hrem : (0:ℚ) ≤ (mpu - (⌊mpu⌋ : ℚ)) * 60 := by
      have := Int.floor_le mpu
      nlinarith
    have htrunc2 : pyTrunc ((mpu - (⌊mpu⌋ : ℚ)) * 60) = ⌊(mpu - (⌊mpu⌋ : ℚ)) * 60⌋ := by
      rw [pyTrunc, if_neg (not_lt.mpr hrem), ratFloor_eq_floor]
    have hSnn : 0 ≤ ⌊(mpu - (⌊mpu⌋ : ℚ)) * 60⌋ := Int.le_floor.mpr (by exact_mod_cast hrem)
    have hpad : pad2 ⌊(mpu - (⌊mpu⌋ : ℚ)) * 60⌋
        = (if ⌊(mpu - (⌊mpu⌋ : ℚ)) * 60⌋ < 10
            then "0" ++ toString ⌊(mpu - (⌊mpu⌋ : ℚ)) * 60⌋
            else toString ⌊(mpu - (⌊mpu⌋ : ℚ)) * 60⌋) := by
      unfold pad2
      rcases lt_or_le ⌊(mpu - (⌊mpu⌋ : ℚ)) * 60⌋ 10 with h | h
      · rw [if_pos ⟨hSnn, h⟩, if_pos h]
      · rw [if_neg (by omega), if_neg (by omega)]
    have hsrc : (if metric = true then t / 60 / (d / 1000)
        else t / 60 / (d * (621371 / 1000000000))) = mpu := by
      rw [hmpudef]; cases metric <;> simp
    show calculate_pace d t metric = _
    rw [calculate_pace, if_neg (by push_neg; exact ⟨hd0, ht0⟩)]
    dsimp only
    rw [hsrc, htrunc1, htrunc2, hpad]
  · with_unfolding_all decide
  · with_unfolding_all decide
  · with_unfolding_all decide

theorem claim_C5_calculate_pace_witness :
    (0:ℚ) ≤ 5000 ∧ (0:ℚ) ≤ 1500
    ∧ calculate_pace 5000 1500 true = "5:00" :=
  ⟨by norm_num, by norm_num,
    (claim_C5_calculate_pace 5000 1500 true (by norm_num) (by norm_num)).2.2.1⟩

/-! ## Parsed JSON values and Python expression semantics

`utils.get_weekly_target` manipulates the result of `json.loads`; its
`try/except` clause catches `json.JSONDecodeError`, `KeyError` and
`ValueError` but *not* `TypeError`, so the exact exception class of each
primitive operation matters. -/

/-- A parsed JSON value (the possible results of `json.loads`).  Objects
carry their key/value pairs in insertion order; `json.loads` produces
`dict`s, whose keys are unique. -/
inductive Json where
  | null
  | bool (b : Bool)
  | num (q : ℚ)
  | str (s : String)
  | arr (elems : List Json)
  | obj (kvs : List (String × Json))

/-- The Python exception classes raised by the operations modelled here. -/
inductive PyErr where
  | typeError
  | keyError
  | valueError
deriving DecidableEq

instance {ε α : Type} [DecidableEq ε] [DecidableEq α] :
    DecidableEq (Except ε α) := fun a b =>
  match a, b with
  | .ok x, .ok y =>
    if h : x = y then .isTrue (by rw [h]) else .isFalse (by simp [h])
  | .error x, .error y =>
    if h : x = y then .isTrue (by rw [h]) else .isFalse (by simp [h])
  | .ok _, .error _ => .isFalse (by simp)
  | .error _, .ok _ => .isFalse (by simp)

/-- Python `v[key]` for a string key: dictionary lookup (`KeyError` when the
key is missing); subscripting a list, string, number, boolean or `None` with
a string key raises `TypeError`. -/
def pySubscr (v : Json) (key : String) : Except PyErr Json :=
  match v with
  | .obj kvs =>
    match kvs.lookup key with
    | some x => .ok x
    | none => .error .keyError
  | _ => .error .typeError

/-- Python `iter(x)`, materialised: lists iterate over their elements,
strings over their characters (as 1-character strings), dicts over their
keys; numbers, booleans and `None` are not iterable (`TypeError`). -/
def pyIter (v : Json) : Except PyErr (List Json) :=
  match v with
  | .arr xs => .ok xs
  | .str s => .ok (s.toList.map fun c => .str (String.mk [c]))
  | .obj kvs => .ok (kvs.map fun kv => .str kv.1)
  | _ => .error .typeError

/-- Numeric view of a value: Python booleans behave as the numbers `0`/`1`
in arithmetic and comparisons. -/
def jsonAsNum : Json → Option ℚ
  | .num q => some q
  | .bool b => some (if b then 1 else 0)
  | _ => none

/-- Two parsed-JSON sort keys are order-comparable in Python when both are
numbers (booleans included) or both are strings.  (Python also compares two
lists element-wise; a schedule entry with a list-valued `weeks_until` makes
`get_weekly_target` raise `TypeError` either in `sorted` or at the later
`weeks_until_event >= entry[...]` comparison, so the function-level outcome
modelled here is the same.) -/
def jsonComparable (a b : Json) : Bool :=
  match jsonAsNum a, jsonAsNum b with
  | some _, some _ => true
  | _, _ =>
    match a, b with
    | .str _, .str _ => true
    | _, _ => false

/-- Strict descending comparison used as the `reverse=True` sort order
(junk `false` on incomparable values, which the comparability guard keeps
unreachable). -/
def jsonGt (a b : Json) : Bool :=
  match jsonAsNum a, jsonAsNum b with
  | some x, some y => decide (y < x)
  | _, _ =>
    match a, b with
    | .str x, .str y => decide (y < x)
    | _, _ => false

/-- All pairs of elements drawn from the list are comparable. -/
def pairwiseComparable : List Json → Bool
  | [] => true
  | x :: xs => xs.all (jsonComparable x) && pairwiseComparable xs

/-- Stable insertion in descending order: walk past strictly greater
elements, so that equal elements keep their original relative order. -/
def insertDescBy (gt : α → α → Bool) (x : α) : List α → List α
  | [] => [x]
  | y :: ys => if gt y x then y :: insertDescBy gt x ys else x :: y :: ys

/-- Stable descending sort (insertion sort).  Any stable comparison sort —
in particular CPython's timsort with `reverse=True` — produces this list
whenever all needed comparisons are defined. -/
def sortDescBy (gt : α → α → Bool) : List α → List α
  | [] => []
  | x :: xs => insertDescBy gt x (sortDescBy gt xs)

/-- Python `sorted(entries, key=…, reverse=True)` applied to a list already
paired with its (left-to-right precomputed) keys: a comparison between
incomparable keys raises `TypeError` — a comparison sort must perform at
least one cross-kind comparison whenever two incomparable keys are present,
since no chain of defined comparisons can order them — otherwise the stable
descending order results. -/
def pySortDesc (keyed : List (Json × Json)) : Except PyErr (List (Json × Json)) :=
  if pairwiseComparable (keyed.map Prod.fst) then
    .ok (sortDescBy (fun a b => jsonGt a.1 b.1) keyed)
  else
    .error .typeError

/-- Fold the digits of a non-empty digit string to a natural number. -/
def digitsToNat (cs : List Char) : Option ℕ :=
  if cs.isEmpty then none
  else cs.foldlM (fun n c =>
    if c.isDigit then some (n * 10 + (c.toNat - 48)) else none) 0

/-- Decimal-literal parser standing in for Python `float(str)`: optional
sign, integer digits, optional fractional part (Python additionally accepts
exponents, `inf`/`nan` and surrounding whitespace — no claim depends on
string-valued targets, this only fixes which plain strings raise
`ValueError`). -/
def parseDecimal (s : String) : Option ℚ :=
  let (sign, body) : ℚ × String :=
    if s.startsWith "-" then (-1, s.drop 1)
    else if s.startsWith "+" then (1, s.drop 1)
    else (1, s)
  match body.splitOn "." with
  | [intPart] => (digitsToNat intPart.toList).map fun n => sign * (n : ℚ)
  | [intPart, fracPart] =>
    if intPart.isEmpty && fracPart.isEmpty then none
    else
      match (if intPart.isEmpty then some 0 else digitsToNat intPart.toList),
            (if fracPart.isEmpty then some 0 else digitsToNat fracPart.toList) with
      | some ip, some fp =>
        some (sign * ((ip : ℚ) + (fp : ℚ) / (10 : ℚ) ^ fracPart.length))
      | _, _ => none
  | _ => none

/-- Python `float(x)` on a parsed-JSON value: numbers and booleans convert,
numeric strings parse (`ValueError` for other strings), and `None`, lists
and dicts raise `TypeError`. -/
def pyFloat : Json → Except PyErr ℚ
  | .num q => .ok q
  | .bool b => .ok (if b then 1 else 0)
  | .str s =>
    match parseDecimal s with
    | some q => .ok q
    | none => .error .valueError
  | _ => .error .typeError

/-- Python `weeks >= v` for an `int` left operand: defined when `v` is a
number or boolean, `TypeError` otherwise. -/
def pyIntGe (weeks : ℤ) (v : Json) : Except PyErr Bool :=
  match jsonAsNum v with
  | some q => .ok (decide (q ≤ (weeks : ℚ)))
  | none => .error .typeError

/-! ## `utils.get_weekly_target` -/

/-- The scan loop of `get_weekly_target`: for each entry of the sorted
schedule, re-read `entry['weeks_until']`, compare, and on the first hit
return `float(entry['target_miles'])`; `none` when the loop falls through. -/
def resolveLoop (weeks : ℤ) : List Json → Except PyErr (Option ℚ)
  | [] => .ok none
  | entry :: rest => do
    let k ← pySubscr entry "weeks_until"
    let c ← pyIntGe weeks k
    if c then
      let t ← pySubscr entry "target_miles"
      let q ← pyFloat t
      pure (some q)
    else
      resolveLoop weeks rest

/-- The key computation of `sorted(schedule, key=lambda x: x['weeks_until'])`:
keys are computed left to right and paired with their entries; the first
failing subscript raises. -/
def keyedList : List Json → Except PyErr (List (Json × Json))
  | [] => .ok []
  | e :: rest => do
    let k ← pySubscr e "weeks_until"
    let keyed ← keyedList rest
    pure ((k, e) :: keyed)

/-- Body of `get_weekly_target`'s `try:` block, after `json.loads`
succeeded with value `j`: build the key-decorated list (left to right, first
failing subscript raises), sort descending by key, scan, and on
fall-through use the first sorted entry (default `25.0` when empty). -/
def targetBody (weeks : ℤ) (j : Json) : Except PyErr ℚ := do
  let elems ← pyIter j
  let keyed ← keyedList elems
  let sortedKeyed ← pySortDesc keyed
  let sorted_schedule := sortedKeyed.map Prod.snd
  match ← resolveLoop weeks sorted_schedule with
  | some q => pure q
  | none =>
    match sorted_schedule with
    | first :: _ => do
      let t ← pySubscr first "target_miles"
      pyFloat t
    | [] => pure 25

/-- `utils.get_weekly_target`.  The argument is the result of the falsiness
test and `json.loads` on `training_schedule_json`: `none` stands for an
absent, empty or unparsable (`json.JSONDecodeError`) schedule string,
`some j` for a string parsing to the JSON value `j`.  `KeyError` and
`ValueError` are caught and fall back to the default `25.0`; any other
exception — in particular `TypeError` — propagates. -/
def get_weekly_target (weeks_until_event : ℤ)
    (training_schedule_json : Option Json) : Except PyErr ℚ :=
  match training_schedule_json with
  | none => .ok 25
  | some j =>
    match targetBody weeks_until_event j with
    | .ok q => .ok q
    | .error .keyError => .ok 25
    | .error .valueError => .ok 25
    | .error e => .error e

/-- The training schedule documented in the spec and in
`tests/test_utils.py`: `[{12, 20}, {8, 25}, {4, 30}]`. -/
def exSchedule : Json := .arr
  [ .obj [("weeks_until", .num 12), ("target_miles", .num 20)],
    .obj [("weeks_until", .num 8), ("target_miles", .num 25)],
    .obj [("weeks_until", .num 4), ("target_miles", .num 30)] ]

/-- C1 (code bug): evaluating `get_weekly_target` on the documented
schedule.  The code returns `25.0` at 10 weeks and `20.0` at 2 weeks, where
the claim — and the repository's own test suite
(`tests/test_utils.py:58,64`) — require `20.0` and `30.0`; the exact-match
and before-all-thresholds cases (8 and 15 weeks) and the no-schedule
default do behave as claimed. -/
theorem claim_C1_weekly_target_eval :
    get_weekly_target 8 (some exSchedule) = .ok 25
    ∧ get_weekly_target 10 (some exSchedule) = .ok 25
    ∧ get_weekly_target 15 (some exSchedule) = .ok 20
    ∧ get_weekly_target 2 (some exSchedule) = .ok 20
    ∧ get_weekly_target 8 none = .ok 25
    ∧ get_weekly_target 10 (some exSchedule) ≠ .ok 20
    ∧ get_weekly_target 2 (some exSchedule) ≠ .ok 30 := by
  refine ⟨?_, ?_, ?_, ?_, ?_, ?_, ?_⟩ <;> with_unfolding_all decide

/-! ## C3: exception behaviour of `get_weekly_target` -/

/-- C3 (counterexample): the schedule string `"5"` is valid JSON, so
`json.loads` succeeds with the number `5`; `sorted(5, …)` then raises
`TypeError`, which the `except (JSONDecodeError, KeyError, ValueError)`
clause does not catch — `get_weekly_target` raises instead of degrading to
the 25.0 default. -/
theorem claim_C3_counterexample :
    get_weekly_target 8 (some (.num 5)) = .error .typeError := by
  with_unfolding_all rfl

/-- `True` on values of numeric kind (numbers and booleans). -/
def numericJson : Json → Bool
  | .num _ => true
  | .bool _ => true
  | _ => false

/-- A schedule entry on which `get_weekly_target` cannot raise `TypeError`:
a JSON object whose `weeks_until` value, when present, is a number or a
boolean, and whose `target_miles` value, when present, is a number, boolean
or string. -/
def benignEntry : Json → Bool
  | .obj kvs =>
    (match kvs.lookup "weeks_until" with
     | none => true
     | some (.num _) => true
     | some (.bool _) => true
     | some _ => false)
    &&
    (match kvs.lookup "target_miles" with
     | none => true
     | some (.num _) => true
     | some (.bool _) => true
     | some (.str _) => true
     | some _ => false)
  | _ => false

@[simp] theorem except_bind_ok {ε α β : Type} (a : α) (f : α → Except ε β) :
    (Except.ok a >>= f : Except ε β) = f a := rfl

@[simp] theorem except_bind_error {ε α β : Type} (e : ε) (f : α → Except ε β) :
    (Except.error e >>= f : Except ε β) = .error e := rfl

@[simp] theorem except_pure {ε α : Type} (a : α) :
    (pure a : Except ε α) = .ok a := rfl

theorem numericJson_asNum {k : Json} (h : numericJson k = true) :
    ∃ q, jsonAsNum k = some q := by
  cases k <;> first
    | exact ⟨_, rfl⟩
    | simp [numericJson] at h

theorem benignEntry_weeks {e : Json} (h : benignEntry e = true) :
    pySubscr e "weeks_until" = .error .keyError
    ∨ ∃ k, pySubscr e "weeks_until" = .ok k ∧ numericJson k = true := by
  cases e <;> simp [benignEntry] at h
  rename_i kvs
  obtain ⟨h1, -⟩ := h
  rcases hk : kvs.lookup "weeks_until" with - | k
  · left; simp [pySubscr, hk]
  · right
    refine ⟨k, by simp [pySubscr, hk], ?_⟩
    rw [hk] at h1
    cases k <;> simp_all [numericJson]

theorem benignEntry_target {e : Json} (h : benignEntry e = true) :
    pySubscr e "target_miles" = .error .keyError
    ∨ ∃ t, pySubscr e "target_miles" = .ok t
        ∧ (pyFloat t = .error .valueError ∨ ∃ q, pyFloat t = .ok q) := by
  cases e <;> simp [benignEntry] at h
  rename_i kvs
  obtain ⟨-, h2⟩ := h
  rcases ht : kvs.lookup "target_miles" with - | t
  · left; simp [pySubscr, ht]
  · right
    refine ⟨t, by simp [pySubscr, ht], ?_⟩
    rw [ht] at h2
    cases t <;> simp [pyFloat]
    · cases h2
    · rename_i s
      rcases parseDecimal s with - | q <;> simp
    · cases h2
    · cases h2

/-- In the keyed list produced by the `sorted` key computation, every pair
records a successful numeric `weeks_until` subscript of a benign entry. -/
def goodPair (p : Json × Json) : Prop :=
  pySubscr p.2 "weeks_until" = .ok p.1
  ∧ numericJson p.1 = true
  ∧ benignEntry p.2 = true

theorem keyedList_benign (l : List Json) (h : l.all benignEntry = true) :
    keyedList l = .error .keyError
    ∨ ∃ keyed, keyedList l = .ok keyed ∧ ∀ p ∈ keyed, goodPair p := by
  induction l with
  | nil => exact Or.inr ⟨[], rfl, by simp⟩
  | cons e rest ih =>
    simp only [List.all_cons, Bool.and_eq_true] at h
    obtain ⟨he, hrest⟩ := h
    rcases benignEntry_weeks he with hw | ⟨k, hw, hnum⟩
    · left
      simp [keyedList, hw]
    · rcases ih hrest with hrec | ⟨keyed, hrec, hgood⟩
      · left
        simp [keyedList, hw, hrec]
      · right
        refine ⟨(k, e) :: keyed, ?_, ?_⟩
        · simp [keyedList, hw, hrec]
        · intro p hp
          rcases List.mem_cons.mp hp with rfl | hp
          · exact ⟨hw, hnum, he⟩
          · exact hgood p hp

theorem pairwiseComparable_of_numeric (ks : List Json)
    (h : ∀ k ∈ ks, numericJson k = true) : pairwiseComparable ks = true := by
  induction ks with
  | nil => rfl
  | cons k rest ih =>
    simp only [pairwiseComparable, Bool.and_eq_true, List.all_eq_true]
    obtain ⟨q, hq⟩ := numericJson_asNum (h k (List.mem_cons_self k rest))
    refine ⟨fun k' hk' => ?_, ih fun k' hk' => h k' (List.mem_cons_of_mem _ hk')⟩
    obtain ⟨q', hq'⟩ := numericJson_asNum (h k' (List.mem_cons_of_mem _ hk'))
    simp [jsonComparable, hq, hq']

theorem mem_insertDescBy {gt : α → α → Bool} {x y : α} {l : List α}
    (h : x ∈ insertDescBy gt y l) : x = y ∨ x ∈ l := by
  induction l with
  | nil => simpa [insertDescBy] using h
  | cons z zs ih =>
    simp only [insertDescBy] at h
    split at h
    · rcases List.mem_cons.mp h with h | h
      · exact Or.inr (by simp [h])
      · rcases ih h with h | h
        · exact Or.inl h
        · exact Or.inr (List.mem_cons_of_mem _ h)
    · rcases List.mem_cons.mp h with h | h
      · exact Or.inl h
      · exact Or.inr h

theorem mem_sortDescBy {gt : α → α → Bool} {x : α} {l : List α}
    (h : x ∈ sortDescBy gt l) : x ∈ l := by
  induction l with
  | nil => simp [sortDescBy] at h
  | cons z zs ih =>
    simp only [sortDescBy] at h
    rcases mem_insertDescBy h with h | h
    · simp [h]
    · exact List.mem_cons_of_mem _ (ih h)

theorem resolveLoop_benign (w : ℤ) (entries : List Json)
    (h : ∀ e ∈ entries, benignEntry e = true
        ∧ ∃ k, pySubscr e "weeks_until" = .ok k ∧ numericJson k = true) :
    resolveLoop w entries ≠ .error .typeError := by
  induction entries with
  | nil => simp [resolveLoop]
  | cons e rest ih =>
    obtain ⟨hbenign, k, hk, hnum⟩ := h e (List.mem_cons_self e rest)
    obtain ⟨q, hq⟩ := numericJson_asNum hnum
    simp only [resolveLoop, hk, except_bind_ok, pyIntGe, hq]
    split
    · rcases benignEntry_target hbenign with ht | ⟨t, ht, hfl⟩
      · simp [ht]
      · rcases hfl with hfl | ⟨q', hfl⟩ <;> simp [ht, hfl]
    · exact ih fun e' he' => h e' (List.mem_cons_of_mem _ he')

/-- C3 (amended): `get_weekly_target` never raises — and degrades to the
default `25.0` — for an absent, empty or unparsable schedule and for the
empty JSON list, and it returns a value (never raises) on every JSON list
of benign entries; but JSON of other shapes can raise `TypeError`
(`claim_C3_counterexample`). -/
theorem claim_C3_no_raise :
    (∀ w : ℤ, get_weekly_target w none = .ok 25)
    ∧ (∀ w : ℤ, get_weekly_target w (some (.arr [])) = .ok 25)
    ∧ (∀ (w : ℤ) (l : List Json), l.all benignEntry = true →
        ∃ q : ℚ, get_weekly_target w (some (.arr l)) = .ok q) := by
  refine ⟨fun w => rfl, fun w => rfl, fun w l hl => ?_⟩
  suffices h : targetBody w (.arr l) ≠ .error .typeError by
    rcases hb : targetBody w (.arr l) with e | q
    · cases e with
      | typeError => exact absurd hb h
      | keyError => exact ⟨25, by unfold get_weekly_target; dsimp only; rw [hb]⟩
      | valueError => exact ⟨25, by unfold get_weekly_target; dsimp only; rw [hb]⟩
    · exact ⟨q, by unfold get_weekly_target; dsimp only; rw [hb]⟩
  unfold targetBody
  simp only [pyIter, except_bind_ok]
  rcases keyedList_benign l hl with hmap | ⟨keyed, hmap, hgood⟩
  · simp [hmap]
  · rw [hmap]
    simp only [except_bind_ok]
    have hcomp : pairwiseComparable (keyed.map Prod.fst) = true := by
      apply pairwiseComparable_of_numeric
      intro k hk
      obtain ⟨p, hp, rfl⟩ := List.mem_map.mp hk
      exact (hgood p hp).2.1
    rw [pySortDesc, if_pos hcomp]
    simp only [except_bind_ok]
    set sorted := sortDescBy (fun a b => jsonGt a.1 b.1) keyed with hsorted
    have hmem : ∀ e ∈ sorted.map Prod.snd, benignEntry e = true
        ∧ ∃ k, pySubscr e "weeks_until" = .ok k ∧ numericJson k = true := by
      intro e he
      obtain ⟨p, hp, rfl⟩ := List.mem_map.mp he
      have hp' : p ∈ keyed := mem_sortDescBy hp
      exact ⟨(hgood p hp').2.2, p.1, (hgood p hp').1, (hgood p hp').2.1⟩
    rcases hloop : resolveLoop w (sorted.map Prod.snd) with e | r
    · have hnt := resolveLoop_benign w (sorted.map Prod.snd) hmem
      rw [hloop] at hnt
      simpa using hnt
    · simp only [except_bind_ok]
      rcases r with - | q
      · rcases hss : sorted.map Prod.snd with - | ⟨first, rest⟩
        · simp
        · have hfirst := hmem first (by rw [hss]; exact List.mem_cons_self _ _)
          rcases benignEntry_target hfirst.1 with ht | ⟨t, ht, hfl⟩
          · simp [ht]
          · rcases hfl with hfl | ⟨q', hfl⟩ <;> simp [ht, hfl]
      · simp

theorem claim_C3_no_raise_witness :
    ([Json.obj [("weeks_until", .num 8), ("target_miles", .num 25)]].all
        benignEntry = true)
    ∧ ∃ q : ℚ, get_weekly_target 8
        (some (.arr [Json.obj [("weeks_until", .num 8),
          ("target_miles", .num 25)]])) = .ok q :=
  ⟨by with_unfolding_all decide,
    claim_C3_no_raise.2.2 8
      [Json.obj [("weeks_until", .num 8), ("target_miles", .num 25)]]
      (by with_unfolding_all decide)⟩

/-! ## `src/function_app.py`: the dashboard aggregator (`get_running_data`) -/

/-- A run as returned by `StravaClient.get_weekly_runs` (the fields the
dashboard reads; `distance` in meters, `moving_time` in seconds,
`start_date` an ISO timestamp string). -/
structure Run where
  distance : ℚ
  moving_time : ℚ
  start_date : String

/-- The per-run record stored in `runs_by_date`. -/
structure RunDay where
  distance_miles : ℚ
  duration_minutes : ℤ
  pace_per_mile : String
deriving DecidableEq

/-- `run['start_date'].split('T')[0]`: the date part of the timestamp. -/
def runDate (r : Run) : String := (r.start_date.splitOn "T").headD ""

/-- The fields computed for one run in the processing loop. -/
def runEntryData (r : Run) : RunDay :=
  { distance_miles := meters_to_miles r.distance
    duration_minutes := seconds_to_minutes r.moving_time
    pace_per_mile := calculate_pace r.distance r.moving_time false }

/-- Python-dict assignment `d[k] = v`: overwrite in place when the key
exists, append otherwise (keys stay in first-insertion order). -/
def dictInsert (m : List (String × α)) (k : String) (v : α) : List (String × α) :=
  match m with
  | [] => [(k, v)]
  | (k', v') :: rest =>
    if k' = k then (k', v) :: rest else (k', v') :: dictInsert rest k v

/-- The run-processing loop of `get_running_data` (lines 87–104): accumulate
`weekly_miles` over every run and index the per-run record by its date
(`runs_by_date[run_date] = {...}`). -/
def processRuns (runs : List Run) : ℚ × List (String × RunDay) :=
  runs.foldl
    (fun acc run =>
      (acc.1 + meters_to_miles run.distance,
        dictInsert acc.2 (runDate run) (runEntryData run)))
    (0, [])

/-- `weekly_miles = round(weekly_miles, 1)` after the loop. -/
def weeklyMiles (runs : List Run) : ℚ := pyRoundTo (processRuns runs).1 1

theorem lookup_dictInsert_self (m : List (String × α)) (k : String) (v : α) :
    (dictInsert m k v).lookup k = some v := by
  induction m with
  | nil => simp [dictInsert, List.lookup]
  | cons p rest ih =>
    obtain ⟨k', v'⟩ := p
    by_cases h : k' = k
    · simp [dictInsert, h, List.lookup]
    · simp only [dictInsert, if_neg h, List.lookup]
      rw [show (k == k') = false from beq_eq_false_iff_ne.mpr (Ne.symm h)]
      exact ih

theorem lookup_dictInsert_ne (m : List (String × α)) {k d : String} (v : α)
    (h : k ≠ d) : (dictInsert m k v).lookup d = m.lookup d := by
  induction m with
  | nil => simp [dictInsert, List.lookup, beq_eq_false_iff_ne.mpr (Ne.symm h)]
  | cons p rest ih =>
    obtain ⟨k', v'⟩ := p
    by_cases h' : k' = k
    · subst h'
      simp [dictInsert, List.lookup, beq_eq_false_iff_ne.mpr (Ne.symm h)]
    · simp only [dictInsert, if_neg h', List.lookup]
      rw [ih]

theorem processRuns_fold (runs : List Run) (acc : ℚ × List (String × RunDay)) :
    runs.foldl
      (fun acc run =>
        (acc.1 + meters_to_miles run.distance,
          dictInsert acc.2 (runDate run) (runEntryData run)))
      acc
    = (acc.1 + (runs.map fun r => meters_to_miles r.distance).sum,
        runs.foldl (fun m run => dictInsert m (runDate run) (runEntryData run)) acc.2) := by
  induction runs generalizing acc with
  | nil => simp
  | cons r rest ih =>
    simp only [List.foldl_cons, List.map_cons, List.sum_cons]
    rw [ih]
    ring_nf

theorem lookup_foldl_dictInsert (runs : List Run) (d : String)
    (m : List (String × RunDay)) :
    (runs.foldl (fun m run => dictInsert m (runDate run) (runEntryData run)) m).lookup d
    = match runs.reverse.find? (fun r => runDate r == d) with
      | some r => some (runEntryData r)
      | none => m.lookup d := by
  induction runs generalizing m with
  | nil => simp
  | cons r rest ih =>
    simp only [List.foldl_cons, List.reverse_cons, List.find?_append]
    rw [ih]
    rcases hfind : rest.reverse.find? (fun r => runDate r == d) with - | r'
    · simp only [Option.none_or]
      by_cases hd : runDate r = d
      · subst hd
        simp [lookup_dictInsert_self]
      · simp only [List.find?]
        rw [show (runDate r == d) = false from beq_eq_false_iff_ne.mpr hd]
        simp [lookup_dictInsert_ne _ _ hd]
    · simp

/-- C6: in the per-date index built by the dashboard loop, the last run (in
iteration order) on each date wins, while `weekly_miles` is the
1-decimal-rounded sum of every run's converted distance, date collisions
included. -/
theorem claim_C6_last_write_wins (runs : List Run) (d : String) :
    ((processRuns runs).2.lookup d
      = match runs.reverse.find? (fun r => runDate r == d) with
        | some r => some (runEntryData r)
        | none => none)
    ∧ weeklyMiles runs
      = pyRoundTo ((runs.map fun r => meters_to_miles r.distance).sum) 1 := by
  constructor
  · rw [processRuns, processRuns_fold]
    simp only
    rw [lookup_foldl_dictInsert]
    rcases runs.reverse.find? (fun r => runDate r == d) with - | r <;> simp
  · rw [weeklyMiles, processRuns, processRuns_fold]
    simp

/-- A day's forecast as produced by `WeatherClient.get_daily_forecast`. -/
structure WeatherDay where
  temp_morning : Option ℚ
  feels_like_morning : Option ℚ
  precipitation_prob : ℚ
  description : String
deriving DecidableEq

/-- The rounded weather block attached to a day entry. -/
structure WeatherOut where
  temp_morning : Option ℚ
  feels_like_morning : Option ℚ
  precipitation_prob : ℤ
  description : String
deriving DecidableEq

/-- One entry of the parsed `WEEKLY_PLAN` configuration (the plan JSON is
assumed well-formed here: `get_weekly_plan` merely parses it, absorbing
parse failures into the empty list). -/
structure PlanEntry where
  day : String
  workout : String
deriving DecidableEq

/-- The environment configuration read by the dashboard endpoint.
`training_schedule` is the parsed `TRAINING_SCHEDULE` value as in
`get_weekly_target`. -/
structure DashConfig where
  event_name : String
  event_date : String
  training_schedule : Option Json
  weekly_plan : List PlanEntry

/-- The request-time values that depend on the clock or on randomness:
`calculate_weeks_until_event(event_date)`, the date string
`(week_start + timedelta(days=i)).strftime('%Y-%m-%d')` for each day index,
and the selected quote. -/
structure WeekContext where
  weeks_until_event : ℤ
  dayDate : ℕ → String
  quote : String

def day_names : List String :=
  ["Monday", "Tuesday", "Wednesday", "Thursday", "Friday", "Saturday", "Sunday"]

def day_abbreviations : List (String × String) :=
  [("Monday", "Mon"), ("Tuesday", "Tue"), ("Wednesday", "Wed"),
   ("Thursday", "Thu"), ("Friday", "Fri"), ("Saturday", "Sat"), ("Sunday", "Sun")]

/-- `day_names.index(day_name) if day_name in day_names else 0`. -/
def dayIndex (day : String) : ℕ :=
  if day ∈ day_names then day_names.indexOf day else 0

/-- `day_abbreviations.get(day_name, day_name[:3])`. -/
def dayShort (day : String) : String :=
  (day_abbreviations.lookup day).getD (day.take 3)

/-- One element of the `weekly_plan` list of the response. -/
structure DayEntry where
  day : String
  day_short : String
  workout : String
  completed : Bool
  run : Option RunDay
  weather : Option WeatherOut
deriving DecidableEq

/-- The dashboard endpoint's JSON response (`status` is the HTTP status
code; `error` the error payload of the 500 responses). -/
structure DashResponse where
  status : ℕ
  error : Option String := none
  weekly_miles : ℚ := 0
  target_miles : ℚ := 0
  weeks_until_event : ℤ := 0
  event_name : String := ""
  quote : String := ""
  weekly_plan : List DayEntry := []
  has_weekly_plan : Bool := false
  progress_percentage : ℤ := 0
deriving DecidableEq

/-- The day entry built for one plan entry: completion and run metrics from
the per-date run index, weather from the forecast map, both keyed by the
day's date. -/
def buildDayEntry (ctx : WeekContext) (runs_by_date : List (String × RunDay))
    (weather_by_date : List (String × WeatherDay)) (dp : PlanEntry) : DayEntry :=
  let day_date := ctx.dayDate (dayIndex dp.day)
  let run_data := runs_by_date.lookup day_date
  let weather_data := weather_by_date.lookup day_date
  { day := dp.day
    day_short := dayShort dp.day
    workout := dp.workout
    completed := run_data.isSome
    run := run_data
    weather := weather_data.map fun w =>
      { temp_morning := w.temp_morning.map (pyRoundTo · 1)
        feels_like_morning := w.feels_like_morning.map (pyRoundTo · 1)
        precipitation_prob := pyRound w.precipitation_prob
        description := w.description } }

/-- Body of `get_running_data`'s outer `try:` block.  The two fetches are
passed in as their outcomes (`Except.error` = the adapter raised); each is
wrapped in its own `try/except` that substitutes empty data.  The only
modelled exception source in the remainder is `get_weekly_target`. -/
def runningDataBody (cfg : DashConfig) (ctx : WeekContext)
    (runsFetch : Except Unit (List Run))
    (weatherFetch : Except Unit (List (String × WeatherDay))) :
    Except PyErr DashResponse := do
  if cfg.event_date = "" then
    pure { status := 500, error := some "Event date not configured" }
  else
    let target_miles ← get_weekly_target ctx.weeks_until_event cfg.training_schedule
    let runs : List Run := match runsFetch with
      | .ok rs => rs
      | .error _ => []
    let weather_by_date : List (String × WeatherDay) := match weatherFetch with
      | .ok w => w
      | .error _ => []
    let processed := processRuns runs
    let weekly_miles := pyRoundTo processed.1 1
    let progress_percentage := calculate_progress_percentage weekly_miles target_miles
    let processed_plan := cfg.weekly_plan.map (buildDayEntry ctx processed.2 weather_by_date)
    pure { status := 200
           weekly_miles := weekly_miles
           target_miles := target_miles
           weeks_until_event := ctx.weeks_until_event
           event_name := cfg.event_name
           quote := ctx.quote
           weekly_plan := processed_plan
           has_weekly_plan := decide (0 < processed_plan.length)
           progress_percentage := progress_percentage }

/-- `function_app.get_running_data`: the outer `except Exception` turns any
uncaught exception into a 500 response. -/
def get_running_data (cfg : DashConfig) (ctx : WeekContext)
    (runsFetch : Except Unit (List Run))
    (weatherFetch : Except Unit (List (String × WeatherDay))) : DashResponse :=
  match runningDataBody cfg ctx runsFetch weatherFetch with
  | .ok r => r
  | .error _ => { status := 500, error := some "Internal server error" }

/-- C7: with a configured event date (and a schedule on which the target
lookup does not raise), a failing activity fetch is equivalent to an empty
run list, a failing forecast fetch is equivalent to an empty forecast map,
and the endpoint answers 200 whatever the two fetch outcomes are. -/
theorem claim_C7_fetch_degradation (cfg : DashConfig) (ctx : WeekContext)
    (hdate : cfg.event_date ≠ "")
    (htarget : ∃ q, get_weekly_target ctx.weeks_until_event cfg.training_schedule
        = .ok q) :
    (∀ (e : Unit) (wf : Except Unit (List (String × WeatherDay))),
        get_running_data cfg ctx (.error e) wf
          = get_running_data cfg ctx (.ok []) wf)
    ∧ (∀ (e : Unit) (rf : Except Unit (List Run)),
        get_running_data cfg ctx rf (.error e)
          = get_running_data cfg ctx rf (.ok []))
    ∧ (∀ (rf : Except Unit (List Run)) (wf : Except Unit (List (String × WeatherDay))),
        (get_running_data cfg ctx rf wf).status = 200) := by
  obtain ⟨q, hq⟩ := htarget
  refine ⟨fun e wf => rfl, fun e rf => rfl, fun rf wf => ?_⟩
  unfold get_running_data runningDataBody
  rw [if_neg hdate, hq]
  rfl

/-- A concrete configuration and request context used as witnesses. -/
def exDashConfig : DashConfig :=
  { event_name := "Spring Marathon", event_date := "2026-04-12",
    training_schedule := none, weekly_plan := [] }

def exWeekContext : WeekContext :=
  { weeks_until_event := 8, dayDate := fun _ => "", quote := "" }

theorem claim_C7_fetch_degradation_witness :
    exDashConfig.event_date ≠ ""
    ∧ (∃ q, get_weekly_target exWeekContext.weeks_until_event
        exDashConfig.training_schedule = .ok q)
    ∧ (get_running_data exDashConfig exWeekContext (.error ()) (.error ())).status
        = 200 :=
  ⟨by decide, ⟨25, rfl⟩,
    (claim_C7_fetch_degradation exDashConfig exWeekContext (by decide)
      ⟨25, rfl⟩).2.2 (.error ()) (.error ())⟩

/-! ## `src/function_app.py`: the nutrition endpoint (`get_nutrition_data`)

Summary, weekly and daily statistics over the fetched activity window.  The
per-type breakdown and the formatted per-activity list are not modelled: no
claim refers to them. -/

/-- An activity as returned by
`StravaClient.get_monthly_activities_detailed` (the fields the summary
statistics read; `calories`, `average_heartrate` and `suffer_score` are
optional in the upstream payload and default to `None`). -/
structure Activity where
  distance : ℚ
  moving_time : ℚ
  total_elevation_gain : ℚ
  calories : Option ℚ
  average_heartrate : Option ℚ
  suffer_score : Option ℚ

/-- Python truthiness of an optional numeric field: `None` and `0` are both
falsy. -/
def truthy : Option ℚ → Bool
  | some q => decide (q ≠ 0)
  | none => false

/-- Python `x or 0` on an optional numeric field. -/
def pyOrZero : Option ℚ → ℚ
  | some q => if q = 0 then 0 else q
  | none => 0

theorem pyOrZero_eq_getD (o : Option ℚ) : pyOrZero o = o.getD 0 := by
  rcases o with - | q
  · rfl
  · by_cases h : q = 0 <;> simp [pyOrZero, h]

/-- `total_calories = sum(a['calories'] or 0 for a in activities)`. -/
def totalCalories (acts : List Activity) : ℚ :=
  (acts.map fun a => pyOrZero a.calories).sum

/-- The `activities_with_X` average pattern of `get_nutrition_data`
(lines 279–287): keep the activities whose field is truthy, and average the
field over them, rounded to `digits`; `None` when no activity qualifies. -/
def avgOf (f : Activity → Option ℚ) (digits : ℕ) (acts : List Activity) :
    Option ℚ :=
  if (acts.filter fun a => truthy (f a)).isEmpty then none
  else some (pyRoundTo
    (((acts.filter fun a => truthy (f a)).map fun a => (f a).getD 0).sum
      / ((acts.filter fun a => truthy (f a)).length : ℚ)) digits)

/-- The summary / weekly-averages / daily-averages blocks of the nutrition
response. -/
structure NutritionSummary where
  total_activities : ℕ
  total_distance_km : ℚ
  total_distance_miles : ℚ
  total_moving_time_hours : ℚ
  total_elevation_meters : ℚ
  total_elevation_feet : ℚ
  total_calories : Option ℚ
  total_suffer_score : Option ℚ
  average_heartrate : Option ℚ
  average_calories_per_activity : Option ℚ
  average_suffer_score : Option ℚ
  activities_per_week : ℚ
  distance_km_per_week : ℚ
  distance_miles_per_week : ℚ
  moving_time_hours_per_week : ℚ
  calories_per_week : Option ℚ
  activities_per_day : ℚ
  distance_km_per_day : ℚ
  distance_miles_per_day : ℚ
  calories_per_day : Option ℚ
deriving DecidableEq

/-- The statistics computation of `get_nutrition_data` (lines 242–301 and
the corresponding response fields): totals, truthiness-filtered averages,
and weekly/daily rollups over `days/7` and `days`; the calorie total and
rollups are reported as `None` unless the calorie sum is positive, and the
suffer total is `None` when no activity has a truthy suffer score. -/
def nutritionSummary (acts : List Activity) (days : ℕ) : NutritionSummary :=
  let total_distance_meters := (acts.map (·.distance)).sum
  let total_distance_km := pyRoundTo (total_distance_meters / 1000) 2
  let total_distance_miles := pyRoundTo (meters_to_miles total_distance_meters) 2
  let total_moving_time_hours := pyRoundTo ((acts.map (·.moving_time)).sum / 3600) 2
  let total_elevation_meters := (acts.map (·.total_elevation_gain)).sum
  let total_cal := totalCalories acts
  let suffer_list := acts.filter fun a => truthy a.suffer_score
  let total_suffer := (suffer_list.map fun a => a.suffer_score.getD 0).sum
  let weeks_in_period : ℚ := (days : ℚ) / 7
  { total_activities := acts.length
    total_distance_km := total_distance_km
    total_distance_miles := total_distance_miles
    total_moving_time_hours := total_moving_time_hours
    total_elevation_meters := pyRoundTo total_elevation_meters 0
    total_elevation_feet := pyRoundTo (total_elevation_meters * (328084 / 100000)) 0
    total_calories := if 0 < total_cal then some total_cal else none
    total_suffer_score := if suffer_list.isEmpty then none else some total_suffer
    average_heartrate := avgOf (·.average_heartrate) 1 acts
    average_calories_per_activity := avgOf (·.calories) 0 acts
    average_suffer_score := avgOf (·.suffer_score) 1 acts
    activities_per_week := pyRoundTo ((acts.length : ℚ) / weeks_in_period) 1
    distance_km_per_week := pyRoundTo (total_distance_km / weeks_in_period) 2
    distance_miles_per_week := pyRoundTo (total_distance_miles / weeks_in_period) 2
    moving_time_hours_per_week := pyRoundTo (total_moving_time_hours / weeks_in_period) 2
    calories_per_week :=
      if 0 < total_cal then some (pyRoundTo (total_cal / weeks_in_period) 0) else none
    activities_per_day := pyRoundTo ((acts.length : ℚ) / (days : ℚ)) 2
    distance_km_per_day := pyRoundTo (total_distance_km / (days : ℚ)) 2
    distance_miles_per_day := pyRoundTo (total_distance_miles / (days : ℚ)) 2
    calories_per_day :=
      if 0 < total_cal then some (pyRoundTo (total_cal / (days : ℚ)) 0) else none }

theorem pyRound_zero : pyRound 0 = 0 := by with_unfolding_all rfl

theorem pyRoundTo_zero (n : ℕ) : pyRoundTo 0 n = 0 := by
  rw [pyRoundTo, zero_mul, pyRound_zero]
  simp

/-- An activity with its (zero-valued) calorie record dropped. -/
def eraseCalories (a : Activity) : Activity := { a with calories := none }

theorem totalCalories_nonneg (acts : List Activity)
    (hcal : ∀ a ∈ acts, ∀ q, a.calories = some q → 0 ≤ q) :
    0 ≤ totalCalories acts := by
  apply List.sum_nonneg
  intro x hx
  obtain ⟨a, ha, rfl⟩ := List.mem_map.mp hx
  rcases hc : a.calories with - | q
  · simp [pyOrZero, hc]
  · have := hcal a ha q hc
    by_cases h0 : q = 0 <;> simp [pyOrZero, hc, h0]
    · linarith

theorem totalCalories_zero_of_missing (acts : List Activity)
    (hzm : ∀ a ∈ acts, a.calories = none ∨ a.calories = some 0) :
    totalCalories acts = 0 := by
  rw [totalCalories]
  have : ∀ a ∈ acts, pyOrZero a.calories = (fun _ : Activity => (0:ℚ)) a := by
    intro a ha
    rcases hzm a ha with h | h <;> simp [pyOrZero, h]
  rw [List.map_congr_left this]
  simp

/-- C8: missing calorie values count as 0 in the total-calorie sum, and the
reported `total_calories`, `calories_per_week` and `calories_per_day` are
`None` exactly when that sum is 0 (for non-negative calorie data), so those
reported fields cannot distinguish an all-zero-calorie window from one with
no calorie data at all; meanwhile the distance metrics of an empty window
report plain 0, not `None`. -/
theorem claim_C8_calorie_nulls (acts : List Activity) (days : ℕ)
    (hcal : ∀ a ∈ acts, ∀ q, a.calories = some q → 0 ≤ q) :
    totalCalories acts = (acts.map fun a => a.calories.getD 0).sum
    ∧ ((nutritionSummary acts days).total_calories = none
        ↔ totalCalories acts = 0)
    ∧ ((nutritionSummary acts days).calories_per_week = none
        ↔ totalCalories acts = 0)
    ∧ ((nutritionSummary acts days).calories_per_day = none
        ↔ totalCalories acts = 0)
    ∧ ((∀ a ∈ acts, a.calories = none ∨ a.calories = some 0) →
        (nutritionSummary acts days).total_calories
            = (nutritionSummary (acts.map eraseCalories) days).total_calories
        ∧ (nutritionSummary acts days).calories_per_week
            = (nutritionSummary (acts.map eraseCalories) days).calories_per_week
        ∧ (nutritionSummary acts days).calories_per_day
            = (nutritionSummary (acts.map eraseCalories) days).calories_per_day
        ∧ (nutritionSummary acts days).total_calories = none)
    ∧ ((nutritionSummary [] days).total_distance_km = 0
        ∧ (nutritionSummary [] days).distance_km_per_week = 0
        ∧ (nutritionSummary [] days).distance_km_per_day = 0
        ∧ (nutritionSummary [] days).total_calories = none) := by
  have hnn := totalCalories_nonneg acts hcal
  have hiff : (0 < totalCalories acts) ↔ ¬ totalCalories acts = 0 := by
    constructor
    · intro h h0; rw [h0] at h; exact lt_irrefl 0 h
    · intro h; exact lt_of_le_of_ne hnn (Ne.symm h)
  refine ⟨?_, ?_, ?_, ?_, ?_, ?_⟩
  · rw [totalCalories]
    exact congrArg List.sum
      (List.map_congr_left fun a _ => pyOrZero_eq_getD a.calories)
  · simp only [nutritionSummary]
    split
    · rename_i h
      simp [hiff.mp h]
    · rename_i h
      simpa using not_not.mp fun hne => h (hiff.mpr hne)
  · simp only [nutritionSummary]
    split
    · rename_i h
      simp [hiff.mp h]
    · rename_i h
      simpa using not_not.mp fun hne => h (hiff.mpr hne)
  · simp only [nutritionSummary]
    split
    · rename_i h
      simp [hiff.mp h]
    · rename_i h
      simpa using not_not.mp fun hne => h (hiff.mpr hne)
  · intro hzm
    have h1 : totalCalories acts = 0 := totalCalories_zero_of_missing acts hzm
    have h2 : totalCalories (acts.map eraseCalories) = 0 := by
      apply totalCalories_zero_of_missing
      intro a ha
      obtain ⟨b, -, rfl⟩ := List.mem_map.mp ha
      exact Or.inl rfl
    refine ⟨?_, ?_, ?_, ?_⟩ <;>
      simp [nutritionSummary, h1, h2]
  · refine ⟨?_, ?_, ?_, ?_⟩ <;>
      simp [nutritionSummary, totalCalories, pyRoundTo_zero]

theorem claim_C8_calorie_nulls_witness :
    (∀ a ∈ [Activity.mk 8000 2400 100 (some 0) (some 155) (some 42)],
        ∀ q : ℚ, a.calories = some q → 0 ≤ q)
    ∧ ((nutritionSummary [Activity.mk 8000 2400 100 (some 0) (some 155) (some 42)] 30).total_calories
          = none
        ↔ totalCalories [Activity.mk 8000 2400 100 (some 0) (some 155) (some 42)] = 0) := by
  refine ⟨?_, ?_⟩
  · intro a ha q hq
    simp only [List.mem_singleton] at ha
    subst ha
    cases hq
    exact le_refl 0
  · exact (claim_C8_calorie_nulls
      [Activity.mk 8000 2400 100 (some 0) (some 155) (some 42)] 30
      (fun a ha q hq => by
        simp only [List.mem_singleton] at ha
        subst ha
        cases hq
        exact le_refl 0)).2.1

/-- An activity with every zero-valued optional metric dropped (calories,
heart rate, suffer score). -/
def zeroMetricsErased (a : Activity) : Activity :=
  { a with
    calories := if a.calories = some 0 then none else a.calories
    average_heartrate :=
      if a.average_heartrate = some 0 then none else a.average_heartrate
    suffer_score := if a.suffer_score = some 0 then none else a.suffer_score }

theorem avgOf_map_invariant (f : Activity → Option ℚ) (digits : ℕ)
    (g : Activity → Activity) (acts : List Activity)
    (ht : ∀ a, truthy (f (g a)) = truthy (f a))
    (hv : ∀ a, truthy (f a) = true → f (g a) = f a) :
    avgOf f digits (acts.map g) = avgOf f digits acts := by
  unfold avgOf
  rw [List.filter_map]
  rw [@List.filter_congr _ ((fun a => truthy (f a)) ∘ g)
    (fun a => truthy (f a)) acts (fun a _ => ht a)]
  have hmap :
      (((acts.filter fun a => truthy (f a)).map g).map fun a => (f a).getD 0)
        = (acts.filter fun a => truthy (f a)).map fun a => (f a).getD 0 := by
    rw [List.map_map]
    apply List.map_congr_left
    intro a ha
    simp only [Function.comp]
    rw [hv a (List.mem_filter.mp ha).2]
  have hemp :
      ((acts.filter fun a => truthy (f a)).map g).isEmpty
        = (acts.filter fun a => truthy (f a)).isEmpty := by
    cases acts.filter fun a => truthy (f a) <;> rfl
  rw [hmap, hemp, List.length_map]

theorem avgOf_none_of_all_falsy (f : Activity → Option ℚ) (digits : ℕ)
    (acts : List Activity)
    (h : ∀ a ∈ acts, f a = none ∨ f a = some 0) :
    avgOf f digits acts = none := by
  unfold avgOf
  have : acts.filter (fun a => truthy (f a)) = [] := by
    rw [List.filter_eq_nil_iff]
    intro a ha
    rcases h a ha with h' | h' <;> simp [truthy, h']
  simp [this]

theorem zeroMetricsErased_truthy (a : Activity) :
    truthy ((zeroMetricsErased a).average_heartrate) = truthy a.average_heartrate
    ∧ truthy ((zeroMetricsErased a).calories) = truthy a.calories
    ∧ truthy ((zeroMetricsErased a).suffer_score) = truthy a.suffer_score := by
  refine ⟨?_, ?_, ?_⟩ <;>
    · simp only [zeroMetricsErased]
      split
      · rename_i h
        simp [h, truthy]
      · rfl

/-- C10: the three nutrition averages test truthiness, not presence: a
recorded 0 in the relevant field is excluded exactly like a missing field
(dropping every zero-valued metric leaves the averages unchanged), an
appended 0-calorie activity never changes — in particular never lowers —
the calorie average, and when every activity's value is 0 or missing the
average is `None`. -/
theorem claim_C10_truthy_averages (acts : List Activity) (days : ℕ)
    (a0 : Activity) :
    ((nutritionSummary (acts.map zeroMetricsErased) days).average_heartrate
        = (nutritionSummary acts days).average_heartrate
      ∧ (nutritionSummary (acts.map zeroMetricsErased) days).average_calories_per_activity
        = (nutritionSummary acts days).average_calories_per_activity
      ∧ (nutritionSummary (acts.map zeroMetricsErased) days).average_suffer_score
        = (nutritionSummary acts days).average_suffer_score)
    ∧ ((∀ a ∈ acts, a.average_heartrate = none ∨ a.average_heartrate = some 0) →
        (nutritionSummary acts days).average_heartrate = none)
    ∧ ((∀ a ∈ acts, a.calories = none ∨ a.calories = some 0) →
        (nutritionSummary acts days).average_calories_per_activity = none)
    ∧ ((∀ a ∈ acts, a.suffer_score = none ∨ a.suffer_score = some 0) →
        (nutritionSummary acts days).average_suffer_score = none)
    ∧ ((a0.calories = none ∨ a0.calories = some 0) →
        (nutritionSummary (acts ++ [a0]) days).average_calories_per_activity
          = (nutritionSummary acts days).average_calories_per_activity) := by
  have hfield : ∀ a : Activity,
      ((zeroMetricsErased a).average_heartrate = a.average_heartrate
        ∨ (a.average_heartrate = some 0
            ∧ (zeroMetricsErased a).average_heartrate = none))
      ∧ ((zeroMetricsErased a).calories = a.calories
        ∨ (a.calories = some 0 ∧ (zeroMetricsErased a).calories = none))
      ∧ ((zeroMetricsErased a).suffer_score = a.suffer_score
        ∨ (a.suffer_score = some 0
            ∧ (zeroMetricsErased a).suffer_score = none)) := by
    intro a
    refine ⟨?_, ?_, ?_⟩ <;>
      · simp only [zeroMetricsErased]
        split
        · rename_i h
          exact Or.inr ⟨h, rfl⟩
        · exact Or.inl rfl
  refine ⟨⟨?_, ?_, ?_⟩, ?_, ?_, ?_, ?_⟩
  · simp only [nutritionSummary]
    apply avgOf_map_invariant
    · exact fun a => (zeroMetricsErased_truthy a).1
    · intro a ha
      rcases (hfield a).1 with h | ⟨h0, -⟩
      · exact h
      · rw [h0] at ha
        simp [truthy] at ha
  · simp only [nutritionSummary]
    apply avgOf_map_invariant
    · exact fun a => (zeroMetricsErased_truthy a).2.1
    · intro a ha
      rcases (hfield a).2.1 with h | ⟨h0, -⟩
      · exact h
      · rw [h0] at ha
        simp [truthy] at ha
  · simp only [nutritionSummary]
    apply avgOf_map_invariant
    · exact fun a => (zeroMetricsErased_truthy a).2.2
    · intro a ha
      rcases (hfield a).2.2 with h | ⟨h0, -⟩
      · exact h
      · rw [h0] at ha
        simp [truthy] at ha
  · intro h
    simp only [nutritionSummary]
    exact avgOf_none_of_all_falsy _ 1 acts h
  · intro h
    simp only [nutritionSummary]
    exact avgOf_none_of_all_falsy _ 0 acts h
  · intro h
    simp only [nutritionSummary]
    exact avgOf_none_of_all_falsy _ 1 acts h
  · intro h0
    simp only [nutritionSummary]
    unfold avgOf
    rw [List.filter_append]
    have : [a0].filter (fun a => truthy a.calories) = [] := by
      rcases h0 with h | h <;> simp [List.filter, truthy, h]
    rw [this, List.append_nil]

theorem claim_C10_truthy_averages_witness :
    ((Activity.mk 5000 1800 50 (some 0) none none).calories = none
      ∨ (Activity.mk 5000 1800 50 (some 0) none none).calories = some 0)
    ∧ (nutritionSummary
          ([Activity.mk 8000 2400 100 (some 450) (some 155) (some 42)]
            ++ [Activity.mk 5000 1800 50 (some 0) none none]) 30).average_calories_per_activity
        = (nutritionSummary
            [Activity.mk 8000 2400 100 (some 450) (some 155) (some 42)]
            30).average_calories_per_activity :=
  ⟨Or.inr rfl,
    (claim_C10_truthy_averages
      [Activity.mk 8000 2400 100 (some 450) (some 155) (some 42)] 30
      (Activity.mk 5000 1800 50 (some 0) none none)).2.2.2.2 (Or.inr rfl)⟩

/-! ## `src/strava_client.py`: `StravaClient.get_activities`

The network is an oracle: `refreshResults i` is the outcome of the `i`-th
token refresh performed during the call (`Except.error` = the refresh POST
raised, which `refresh_access_token` re-raises as a plain `Exception`), and
`getResults i` the outcome of the `i`-th activities GET.  The call's result
and the trace of GET requests it issued are returned together. -/

/-- The query parameters of an activities request: `per_page` capped at
200, and `after` included only when the timestamp argument is truthy
(`None` and `0` are both omitted by `if after_timestamp:`). -/
structure StravaParams where
  per_page : ℕ
  after : Option ℤ
deriving DecidableEq

/-- `params` as built by `get_activities`. -/
def mkParams (after_timestamp : Option ℤ) (per_page : ℕ) : StravaParams :=
  { per_page := min per_page 200
    after := match after_timestamp with
      | some a => if a = 0 then none else some a
      | none => none }

/-- One GET of the activities URL: bearer token and query parameters. -/
structure GetRequest where
  token : String
  params : StravaParams
deriving DecidableEq

/-- Outcome of one HTTP GET: a transport failure
(`requests.exceptions.RequestException`) or a response with a status code
and a JSON body. -/
inductive GetOutcome where
  | netErr
  | resp (status : ℕ) (body : List Json)

/-- The network oracle for one `get_activities` call. -/
structure StravaEnv where
  refreshResults : ℕ → Except Unit String
  getResults : ℕ → GetOutcome

/-- Result and request trace of one `get_activities` call. -/
structure CallTrace where
  result : Except Unit (List Json)
  requests : List GetRequest
  refreshes : ℕ

/-- The request/retry part of `get_activities`, entered holding token `tok`
after `nrefresh` refreshes: GET; on a 401 response refresh once and repeat
the same GET; then `raise_for_status` (any status ≥ 400 raises) and return
the JSON body.  A transport failure of either GET, a failed refresh, or a
non-2xx final status all surface as a raised exception (`Except.error`). -/
def getActivitiesFrom (tok : String) (nrefresh : ℕ) (params : StravaParams)
    (env : StravaEnv) : CallTrace :=
  let req1 : GetRequest := { token := tok, params := params }
  match env.getResults 0 with
  | .netErr => { result := .error (), requests := [req1], refreshes := nrefresh }
  | .resp status body =>
    if status = 401 then
      match env.refreshResults nrefresh with
      | .error e =>
        { result := .error e, requests := [req1], refreshes := nrefresh + 1 }
      | .ok tok2 =>
        let req2 : GetRequest := { token := tok2, params := params }
        match env.getResults 1 with
        | .netErr =>
          { result := .error (), requests := [req1, req2],
            refreshes := nrefresh + 1 }
        | .resp s2 b2 =>
          if 400 ≤ s2 then
            { result := .error (), requests := [req1, req2],
              refreshes := nrefresh + 1 }
          else
            { result := .ok b2, requests := [req1, req2],
              refreshes := nrefresh + 1 }
    else if 400 ≤ status then
      { result := .error (), requests := [req1], refreshes := nrefresh }
    else
      { result := .ok body, requests := [req1], refreshes := nrefresh }

/-- `StravaClient.get_activities(after_timestamp, per_page)` started with
`self.access_token = tok?`: authenticate lazily when no token is held, then
issue the request. -/
def get_activities (tok? : Option String) (after_timestamp : Option ℤ)
    (per_page : ℕ) (env : StravaEnv) : CallTrace :=
  let params := mkParams after_timestamp per_page
  match tok? with
  | none =>
    match env.refreshResults 0 with
    | .error e => { result := .error e, requests := [], refreshes := 1 }
    | .ok tok => getActivitiesFrom tok 1 params env
  | some tok => getActivitiesFrom tok 0 params env

theorem getActivitiesFrom_params {tok : String} {n : ℕ} {params : StravaParams}
    {env : StravaEnv} {req : GetRequest}
    (h : req ∈ (getActivitiesFrom tok n params env).requests) :
    req.params = params := by
  unfold getActivitiesFrom at h
  split at h
  · simp at h; rw [h]
  · split at h
    · split at h
      · simp at h; rw [h]
      · split at h
        · simp at h
          rcases h with h | h <;> rw [h]
        · split at h <;>
            · simp at h
              rcases h with h | h <;> rw [h]
    · split at h <;>
        · simp at h
          rw [h]

theorem getActivitiesFrom_head (tok : String) (n : ℕ) (params : StravaParams)
    (env : StravaEnv) :
    ((getActivitiesFrom tok n params env).requests.head?.map (·.token))
      = some tok := by
  unfold getActivitiesFrom
  split
  · rfl
  · split
    · split
      · rfl
      · split
        · rfl
        · split <;> rfl
    · split <;> rfl

theorem getActivitiesFrom_refreshes (tok : String) (n : ℕ)
    (params : StravaParams) (env : StravaEnv) :
    n ≤ (getActivitiesFrom tok n params env).refreshes := by
  unfold getActivitiesFrom
  split
  · exact le_refl _
  · split
    · split
      · exact Nat.le_succ _
      · split
        · exact Nat.le_succ _
        · split <;> exact Nat.le_succ _
    · split <;> exact le_refl _

/-- C9: lazy authentication, exactly one re-authentication and one retry of
the identical request on a 401, and error propagation with no further retry
for every other failure.  Stated over an arbitrary network oracle. -/
theorem claim_C9_get_activities (tok? : Option String)
    (after_timestamp : Option ℤ) (per_page : ℕ) (env : StravaEnv) :
    -- (a) no token held and the lazy refresh fails: error before any request
    (tok? = none → ∀ e, env.refreshResults 0 = .error e →
      (get_activities tok? after_timestamp per_page env).result = .error e
      ∧ (get_activities tok? after_timestamp per_page env).requests = [])
    -- (b) every request carries the parameters built once from the
    -- arguments, and the first one the held (or lazily refreshed) token
    ∧ (∀ req ∈ (get_activities tok? after_timestamp per_page env).requests,
        req.params = mkParams after_timestamp per_page)
    ∧ (tok? = none → ∀ t, env.refreshResults 0 = .ok t →
        ((get_activities tok? after_timestamp per_page env).requests.head?.map
          (·.token)) = some t
        ∧ 1 ≤ (get_activities tok? after_timestamp per_page env).refreshes)
    ∧ (∀ t, tok? = some t →
        ((get_activities tok? after_timestamp per_page env).requests.head?.map
          (·.token)) = some t)
    -- (c) first GET 401: exactly one more refresh and exactly one retry,
    -- same parameters, fresh token; the retried response decides the result
    ∧ (∀ t nt b, tok? = some t → env.getResults 0 = .resp 401 b →
        (env.refreshResults 0 = .error () →
          (get_activities tok? after_timestamp per_page env).result = .error ()
          ∧ (get_activities tok? after_timestamp per_page env).requests.length
              = 1)
        ∧ (env.refreshResults 0 = .ok nt →
          (get_activities tok? after_timestamp per_page env).requests
            = [⟨t, mkParams after_timestamp per_page⟩,
               ⟨nt, mkParams after_timestamp per_page⟩]
          ∧ (get_activities tok? after_timestamp per_page env).refreshes = 1
          ∧ (∀ s2 b2, env.getResults 1 = .resp s2 b2 →
              (s2 < 400 →
                (get_activities tok? after_timestamp per_page env).result
                  = .ok b2)
              ∧ (400 ≤ s2 →
                (get_activities tok? after_timestamp per_page env).result
                  = .error ()))
          ∧ (env.getResults 1 = .netErr →
              (get_activities tok? after_timestamp per_page env).result
                = .error ())))
    -- (d) first GET a non-401 failure: error, no retry
    ∧ (∀ t s b, tok? = some t → env.getResults 0 = .resp s b → s ≠ 401 →
        (get_activities tok? after_timestamp per_page env).requests.length = 1
        ∧ (400 ≤ s →
            (get_activities tok? after_timestamp per_page env).result
              = .error ())
        ∧ (s < 400 →
            (get_activities tok? after_timestamp per_page env).result = .ok b))
    ∧ (∀ t, tok? = some t → env.getResults 0 = .netErr →
        (get_activities tok? after_timestamp per_page env).result = .error ()
        ∧ (get_activities tok? after_timestamp per_page env).requests.length
            = 1) := by
  refine ⟨?_, ?_, ?_, ?_, ?_, ?_, ?_⟩
  · rintro rfl e he
    simp [get_activities, he]
  · intro req hreq
    rcases tok? with - | t
    · rcases hr : env.refreshResults 0 with e | t
      · simp [get_activities, hr] at hreq
      · simp only [get_activities, hr] at hreq
        exact getActivitiesFrom_params hreq
    · simp only [get_activities] at hreq
      exact getActivitiesFrom_params hreq
  · rintro rfl t ht
    simp only [get_activities, ht]
    exact ⟨getActivitiesFrom_head _ _ _ _,
      le_trans (by omega) (getActivitiesFrom_refreshes _ 1 _ _)⟩
  · rintro t rfl
    simp only [get_activities]
    exact getActivitiesFrom_head _ _ _ _
  · rintro t nt b rfl hg
    constructor
    · intro hr
      constructor <;>
        simp [get_activities, getActivitiesFrom, hg, hr]
    · intro hr
      refine ⟨?_, ?_, ?_, ?_⟩
      · rcases hg1 : env.getResults 1 with - | ⟨s2, b2⟩
        · simp [get_activities, getActivitiesFrom, hg, hr, hg1]
        · rcases le_or_lt 400 s2 with h | h
          · simp [get_activities, getActivitiesFrom, hg, hr, hg1, h]
          · simp [get_activities, getActivitiesFrom, hg, hr, hg1, not_le.mpr h]
      · rcases hg1 : env.getResults 1 with - | ⟨s2, b2⟩
        · simp [get_activities, getActivitiesFrom, hg, hr, hg1]
        · rcases le_or_lt 400 s2 with h | h
          · simp [get_activities, getActivitiesFrom, hg, hr, hg1, h]
          · simp [get_activities, getActivitiesFrom, hg, hr, hg1, not_le.mpr h]
      · intro s2 b2 hg1
        constructor
        · intro hlt
          simp [get_activities, getActivitiesFrom, hg, hr, hg1, not_le.mpr hlt]
        · intro hge
          simp [get_activities, getActivitiesFrom, hg, hr, hg1, hge]
      · intro hg1
        simp [get_activities, getActivitiesFrom, hg, hr, hg1]
  · rintro t s b rfl hg hne
    refine ⟨?_, ?_, ?_⟩
    · rcases le_or_lt 400 s with h | h
      · simp [get_activities, getActivitiesFrom, hg, hne, h]
      · simp [get_activities, getActivitiesFrom, hg, hne, not_le.mpr h]
    · intro h
      simp [get_activities, getActivitiesFrom, hg, hne, h]
    · intro h
      simp [get_activities, getActivitiesFrom, hg, hne, not_le.mpr h]
  · rintro t rfl hg
    constructor <;> simp [get_activities, getActivitiesFrom, hg]

/-- A concrete oracle for the 401-then-retry scenario. -/
def exStravaEnv : StravaEnv :=
  { refreshResults := fun _ => .ok "tok2"
    getResults := fun i => if i = 0 then .resp 401 [] else .resp 200 [] }

theorem claim_C9_get_activities_witness :
    (some "tok1" : Option String) = some "tok1"
    ∧ exStravaEnv.getResults 0 = .resp 401 []
    ∧ exStravaEnv.refreshResults 0 = .ok "tok2"
    ∧ (get_activities (some "tok1") (some 1700000000) 50 exStravaEnv).requests
        = [⟨"tok1", mkParams (some 1700000000) 50⟩,
           ⟨"tok2", mkParams (some 1700000000) 50⟩]
    ∧ (get_activities (some "tok1") (some 1700000000) 50 exStravaEnv).refreshes
        = 1 :=
  ⟨rfl, rfl, rfl,
    (((claim_C9_get_activities (some "tok1") (some 1700000000) 50
        exStravaEnv).2.2.2.2.1 "tok1" "tok2" [] rfl rfl).2 rfl).1,
    ((((claim_C9_get_activities (some "tok1") (some 1700000000) 50
        exStravaEnv).2.2.2.2.1 "tok1" "tok2" [] rfl rfl).2 rfl).2).1⟩

end TrmnlDash
